import Mathlib

/-!
Verification of the profitability-calculation core of
`Calculadora_mineria_solar.py` (a Bitcoin solar-mining calculator).

The Python source computes with IEEE double-precision floats.  We embed the
numeric state space of the hashprice routine as an extended-value type
`FloatV`: a finite rational, NaN, +Inf or -Inf, with the IEEE rules for the
arithmetic operations and comparisons the source actually performs.  The pure
financial formulas of the engine (`calcular_metricas_solares`,
`calcular_metricas_red`, `calcular`), whose inputs are validated finite
numbers, are embedded over ℚ; the solo-mining probability, which uses
`math.exp`, is embedded over ℝ.
-/

namespace Calculadora

/-- Average number of Bitcoin blocks mined per day (`BLOQUES_POR_DIA = 144`). -/
def BLOQUES_POR_DIA : ℚ := 144

/-- Typical solar performance factor (`FACTOR_RENDIMIENTO_SOLAR = 0.8`). -/
def FACTOR_RENDIMIENTO_SOLAR : ℚ := 8 / 10

/-- An IEEE-754-style extended value: a finite rational, NaN, or a signed
infinity.  Models the Python `float` values that can flow through
`actualizar_hashprice_spot`. -/
inductive FloatV where
  | fin (q : ℚ)
  | nan
  | inf
  | ninf
deriving DecidableEq, Repr

namespace FloatV

/-- IEEE addition on extended values (`+` on Python floats). -/
def add : FloatV → FloatV → FloatV
  | nan, _ => nan
  | _, nan => nan
  | fin a, fin b => fin (a + b)
  | fin _, inf => inf
  | fin _, ninf => ninf
  | inf, fin _ => inf
  | inf, inf => inf
  | inf, ninf => nan
  | ninf, fin _ => ninf
  | ninf, inf => nan
  | ninf, ninf => ninf

/-- IEEE multiplication on extended values (`*` on Python floats). -/
def mul : FloatV → FloatV → FloatV
  | nan, _ => nan
  | _, nan => nan
  | fin a, fin b => fin (a * b)
  | fin a, inf => if 0 < a then inf else if a < 0 then ninf else nan
  | fin a, ninf => if 0 < a then ninf else if a < 0 then inf else nan
  | inf, fin b => if 0 < b then inf else if b < 0 then ninf else nan
  | ninf, fin b => if 0 < b then ninf else if b < 0 then inf else nan
  | inf, inf => inf
  | inf, ninf => ninf
  | ninf, inf => ninf
  | ninf, ninf => inf

/-- IEEE division on extended values (`/` on Python floats).  A finite or
infinite dividend over a zero divisor raises `ZeroDivisionError` in Python;
the guards of the source never reach that case, and the enclosing
`try/except` turns it into the same zero result as NaN, so it is mapped to
`nan` here. -/
def div : FloatV → FloatV → FloatV
  | nan, _ => nan
  | _, nan => nan
  | fin a, fin b => if b = 0 then nan else fin (a / b)
  | fin _, inf => fin 0
  | fin _, ninf => fin 0
  | inf, fin b => if b < 0 then ninf else if b = 0 then nan else inf
  | ninf, fin b => if b < 0 then inf else if b = 0 then nan else ninf
  | inf, inf => nan
  | inf, ninf => nan
  | ninf, inf => nan
  | ninf, ninf => nan

/-- The Python comparison `x <= 0` (false on NaN). -/
def le0 : FloatV → Bool
  | fin a => decide (a ≤ 0)
  | nan => false
  | inf => false
  | ninf => true

/-- The Python comparison `x > 0` (false on NaN). -/
def gt0 : FloatV → Bool
  | fin a => decide (0 < a)
  | nan => false
  | inf => true
  | ninf => false

/-- `math.isnan(x) or math.isinf(x)`. -/
def isSpecial : FloatV → Bool
  | fin _ => false
  | nan => true
  | inf => true
  | ninf => true

end FloatV

/-- The network-economics inputs read by `actualizar_hashprice_spot`. -/
structure NetworkSnapshot where
  precio_btc : FloatV
  recompensa_btc : FloatV
  fees_btc_bloque : FloatV
  hashrate_eh : FloatV
deriving DecidableEq, Repr

/-- `CalculadoraMineria.actualizar_hashprice_spot`: the hashprice (EUR per
PH/s per day) computed from a `NetworkSnapshot`.  Mirrors the source: a
non-positive BTC price or a non-positive network hashrate short-circuits to
`0.00`; otherwise
`hashprice = ((recompensa + fees) * BLOQUES_POR_DIA / (hashrate_eh * 1000)) * precio_btc`,
and a NaN or infinite result is replaced by `0`. -/
def actualizar_hashprice_spot (s : NetworkSnapshot) : FloatV :=
  if s.precio_btc.le0 then .fin 0
  else if s.hashrate_eh.gt0 then
    let hashrate_ph := s.hashrate_eh.mul (.fin 1000)
    let btc_por_bloque := s.recompensa_btc.add s.fees_btc_bloque
    let factor_hashprice := (btc_por_bloque.mul (.fin BLOQUES_POR_DIA)).div hashrate_ph
    let hashprice_eur := factor_hashprice.mul s.precio_btc
    if hashprice_eur.isSpecial then .fin 0 else hashprice_eur
  else .fin 0

/-- Closed form of the hashprice on finite, guard-passing inputs. -/
def hashprice_eur_fin (r f h p : ℚ) : ℚ :=
  ((r + f) * BLOQUES_POR_DIA / (h * 1000)) * p

/-- Replacement of a NaN/Inf value by `0`. -/
def sanitizar (x : FloatV) : FloatV :=
  if x.isSpecial then .fin 0 else x

/-- Modelled from the spec: "Any input that is not-a-number or infinite →
treated as zero before computation (sanitize-then-compute)".  The source has
no such pre-pass; this definition exists only to be compared against
`actualizar_hashprice_spot`. -/
def hashprice_saneado_antes (s : NetworkSnapshot) : FloatV :=
  actualizar_hashprice_spot
    ⟨sanitizar s.precio_btc, sanitizar s.recompensa_btc,
     sanitizar s.fees_btc_bloque, sanitizar s.hashrate_eh⟩

/-- The six-tuple returned by `calcular_metricas_solares` /
`calcular_metricas_red`:
`(ingreso_bruto, fees_pool, coste (signed), beneficio_neto,
energia_consumida, horas_operacion)`. -/
structure Metricas where
  ingreso_bruto : ℚ
  fees_pool : ℚ
  coste : ℚ
  beneficio_neto : ℚ
  energia_consumida : ℚ
  horas_operacion : ℚ
deriving DecidableEq, Repr

/-- The all-zero tuple returned for a disabled source. -/
def Metricas.cero : Metricas := ⟨0, 0, 0, 0, 0, 0⟩

/-- Field-wise sum of two source results; this is what
`generar_html_resultados` feeds to the "PRODUCCIÓN COMBINADA" table. -/
def Metricas.suma (a b : Metricas) : Metricas :=
  ⟨a.ingreso_bruto + b.ingreso_bruto, a.fees_pool + b.fees_pool,
   a.coste + b.coste, a.beneficio_neto + b.beneficio_neto,
   a.energia_consumida + b.energia_consumida,
   a.horas_operacion + b.horas_operacion⟩

/-- `CalculadoraMineria.calcular_metricas_solares`.  The `chk_solar` checkbox
state and the two text fields read inside the method are passed explicitly. -/
def calcular_metricas_solares (chk_solar : Bool)
    (hashprice_th_dia ths consumo_kw precio_venta_solar_eur comision : ℚ)
    (horas_solares_dia : ℚ) (dias_uso : ℤ) : Metricas :=
  if !chk_solar then Metricas.cero
  else
    let horas_solares_anuales := horas_solares_dia * (dias_uso : ℚ)
    let ingreso_bruto := hashprice_th_dia * ths * (horas_solares_anuales / 24)
    let ingreso_neto := ingreso_bruto * (1 - comision)
    let energia_consumida := consumo_kw * horas_solares_anuales
    let coste_oportunidad := energia_consumida * precio_venta_solar_eur
    ⟨ingreso_bruto, ingreso_bruto * comision, -coste_oportunidad,
     ingreso_neto - coste_oportunidad, energia_consumida,
     horas_solares_anuales⟩

/-- `CalculadoraMineria.calcular_metricas_red`.  Identical algorithm with the
grid checkbox, tariff and schedule fields. -/
def calcular_metricas_red (chk_red : Bool)
    (hashprice_th_dia ths consumo_kw precio_red_eur comision : ℚ)
    (horas_red_dia : ℚ) (dias_red : ℤ) : Metricas :=
  if !chk_red then Metricas.cero
  else
    let horas_red_anuales := horas_red_dia * (dias_red : ℚ)
    let ingreso_bruto := hashprice_th_dia * ths * (horas_red_anuales / 24)
    let ingreso_neto := ingreso_bruto * (1 - comision)
    let consumo_anual := consumo_kw * horas_red_anuales
    let coste_electricidad := consumo_anual * precio_red_eur
    ⟨ingreso_bruto, ingreso_bruto * comision, -coste_electricidad,
     ingreso_neto - coste_electricidad, consumo_anual, horas_red_anuales⟩

/-- The already-validated numeric inputs read by `CalculadoraMineria.calcular`:
per-unit hardware data, the pool commission, the stored hashprice base
(EUR per PH/s per day), the stored BTC price, and the per-source checkbox,
tariff and schedule fields. -/
structure Entradas where
  num_minero : ℤ
  ths : ℚ
  consumo_w : ℚ
  precio_equipo_unidad : ℚ
  comision : ℚ
  hashprice_eur_ph : ℚ
  precio_btc_eur : ℚ
  chk_solar : Bool
  precio_venta : ℚ
  horas_solares_dia : ℚ
  dias_uso : ℤ
  chk_red : Bool
  precio_red : ℚ
  horas_red_dia : ℚ
  dias_red : ℤ
deriving DecidableEq, Repr

/-- The values computed by `CalculadoraMineria.calcular` and handed to
`generar_html_resultados` / `mostrar_ventana_resultados`. -/
structure Resultados where
  ths_total : ℚ
  consumo_kw_total : ℚ
  precio_equipo : ℚ
  solar : Metricas
  red : Metricas
  produccion_total : ℚ
  eficiencia_w_th : ℚ
  potencia_fotovoltaica_kwp : ℚ
  amort_solar : ℚ
  amort_red : ℚ
  amort_total : ℚ
  btc_anio_bruto : ℚ
  tiempo_btc_anios : ℚ
  coste_btc : ℚ
deriving DecidableEq, Repr

/-- `CalculadoraMineria.calcular`: the main profitability computation on
validated inputs (the GUI reads, HTML generation and window display are
presentation and not modelled). -/
def calcular (e : Entradas) : Resultados :=
  let num : ℚ := (e.num_minero : ℚ)
  let ths := e.ths * num
  let consumo_kw := (e.consumo_w / 1000) * num
  let precio_equipo := e.precio_equipo_unidad * num
  let hashprice_th_dia := e.hashprice_eur_ph / 1000
  let ms := calcular_metricas_solares e.chk_solar hashprice_th_dia ths
    consumo_kw e.precio_venta e.comision e.horas_solares_dia e.dias_uso
  let mr := calcular_metricas_red e.chk_red hashprice_th_dia ths
    consumo_kw e.precio_red e.comision e.horas_red_dia e.dias_red
  let produccion_total := ms.beneficio_neto + mr.beneficio_neto
  let eficiencia_w_th := if ths > 0 then (e.consumo_w * num) / ths else 0
  let potencia_fotovoltaica_kwp :=
    if e.chk_solar then consumo_kw / FACTOR_RENDIMIENTO_SOLAR else 0
  let amort_solar :=
    if ms.beneficio_neto > 0 then precio_equipo / ms.beneficio_neto else 0
  let amort_red :=
    if mr.beneficio_neto > 0 then precio_equipo / mr.beneficio_neto else 0
  let amort_total :=
    if produccion_total > 0 then precio_equipo / produccion_total else 0
  let btc_anio_bruto :=
    if e.precio_btc_eur > 0
    then (ms.ingreso_bruto + mr.ingreso_bruto) / e.precio_btc_eur else 0
  let tiempo_btc_anios := if btc_anio_bruto > 0 then 1 / btc_anio_bruto else 0
  let coste_btc :=
    if btc_anio_bruto > 0
    then (|ms.coste| + |mr.coste| + ms.fees_pool + mr.fees_pool) / btc_anio_bruto
    else 0
  ⟨ths, consumo_kw, precio_equipo, ms, mr, produccion_total, eficiencia_w_th,
   potencia_fotovoltaica_kwp, amort_solar, amort_red, amort_total,
   btc_anio_bruto, tiempo_btc_anios, coste_btc⟩

/-- The amortization cell rendered by `generar_html_resultados`: a year
figure, or the sentinel text `"No rentable"`. -/
inductive Amortizacion where
  | anios (a : ℚ)
  | noRentable
deriving DecidableEq, Repr

/-- Rendering rule of the three amortization rows:
`f"... años" if amort > 0 else 'No rentable'`. -/
def mostrar_amortizacion (amort : ℚ) : Amortizacion :=
  if amort > 0 then .anios amort else .noRentable

/-- The raw text/checkbox state examined by
`CalculadoraMineria.validar_datos_entrada`.  A numeric text field is `some v`
when `float(...)`/`int(...)` succeeds on it and `none` when the conversion
raises; fields read through `getattr` with a numeric default can never fail
to parse and are plain rationals. -/
structure CamposEntrada where
  precio_btc : Option ℚ
  cambio_usd_eur : Option ℚ
  hashrate_eh : Option ℚ
  fees_btc_bloque : Option ℚ
  recompensa_btc : Option ℚ
  comision : Option ℚ
  num_minero : Option ℤ
  ths : Option ℚ
  consumo_kw : Option ℚ
  precio_equipo : ℚ
  chk_solar : Bool
  precio_venta : ℚ
  horas_solares_dia : Option ℚ
  dias_uso : Option ℤ
  chk_red : Bool
  precio_red : ℚ
  horas_red_dia : Option ℚ
  dias_red : Option ℤ
deriving DecidableEq, Repr

/-- One `(float(field), lambda)` entry of the validation list: `false` when
the conversion raised (the surrounding `except` returns `False` as soon as
any entry fails to parse, and the final `all(...)` is `False` as soon as any
check fails, so folding parse failure into the entry's verdict preserves the
method's result), otherwise the range check applied to the parsed value. -/
def valida_campo {α : Type} : Option α → (α → Bool) → Bool
  | none, _ => false
  | some x, ok => ok x

/-- `CalculadoraMineria.validar_datos_entrada`: builds the list of critical
validations, extends it with the solar block when `chk_solar` is ticked and
the grid block when `chk_red` is ticked, and returns the conjunction of all
checks together with "at least one source enabled"; any conversion failure is
caught and yields `false`. -/
def validar_datos_entrada (d : CamposEntrada) : Bool :=
  valida_campo d.precio_btc (fun x => decide (0 < x)) &&
  valida_campo d.cambio_usd_eur (fun x => decide (0 < x)) &&
  valida_campo d.hashrate_eh (fun x => decide (0 < x)) &&
  valida_campo d.fees_btc_bloque (fun x => decide (0 ≤ x)) &&
  valida_campo d.recompensa_btc (fun x => decide (0 < x)) &&
  valida_campo d.comision (fun x => decide (0 ≤ x ∧ x ≤ 1)) &&
  valida_campo d.num_minero (fun x => decide (0 < x)) &&
  valida_campo d.ths (fun x => decide (0 < x)) &&
  valida_campo d.consumo_kw (fun x => decide (0 < x)) &&
  decide (0 < d.precio_equipo) &&
  (if d.chk_solar then
    decide (0 ≤ d.precio_venta) &&
    valida_campo d.horas_solares_dia (fun x => decide (0 ≤ x ∧ x ≤ 24)) &&
    valida_campo d.dias_uso (fun x => decide (1 ≤ x ∧ x ≤ 365))
   else true) &&
  (if d.chk_red then
    decide (0 ≤ d.precio_red) &&
    valida_campo d.horas_red_dia (fun x => decide (0 ≤ x ∧ x ≤ 24)) &&
    valida_campo d.dias_red (fun x => decide (1 ≤ x ∧ x ≤ 365))
   else true) &&
  (d.chk_solar || d.chk_red)

/-- Python's `round` (banker's rounding, half to even) on a real argument,
returning the integer; composed with `int(...)` in the source, which is exact
on a whole float. -/
noncomputable def pythonRound (x : ℝ) : ℤ :=
  if Int.fract x = 1 / 2 then 2 * round (x / 2) else round x

/-- The outcome of `calcular_probabilidad_solo_mining`: the string
`f"1 entre {n}"`, or `"N/A"`. -/
inductive ProbSolo where
  | entre (n : ℤ)
  | noDisponible
deriving DecidableEq, Repr

/-- `CalculadoraMineria.calcular_probabilidad_solo_mining`: Poisson model of
the chance of finding at least one block in a year.  The network-hashrate
text field is `none` when `float(...)` raises, in which case the `except`
clause returns `"N/A"`. -/
noncomputable def calcular_probabilidad_solo_mining (ths : ℝ) :
    Option ℝ → ProbSolo
  | none => .noDisponible
  | some hashrate_red_ehs =>
    let hashrate_red_ths := hashrate_red_ehs * 1000000
    let bloques_anio : ℝ := (BLOQUES_POR_DIA : ℚ) * 365
    let bloques_esperados :=
      if hashrate_red_ths > 0 then bloques_anio * (ths / hashrate_red_ths)
      else 0
    let prob_bloque :=
      if bloques_esperados > 0 then 1 - Real.exp (-bloques_esperados) else 0
    if prob_bloque > 0 then .entre (pythonRound (1 / prob_bloque))
    else .noDisponible

/-!  Concrete inputs used by the witnesses. -/

/-- A representative fully-enabled input (Scenario A numbers: S19-class
hardware, 600 EH/s network, 60000 EUR BTC price). -/
def entradaEjemplo : Entradas :=
  { num_minero := 1
    ths := 100
    consumo_w := 3500
    precio_equipo_unidad := 500
    comision := 2 / 100
    hashprice_eur_ph := 1143 / 25
    precio_btc_eur := 60000
    chk_solar := true
    precio_venta := 4 / 100
    horas_solares_dia := 11 / 2
    dias_uso := 365
    chk_red := true
    precio_red := 8 / 100
    horas_red_dia := 24
    dias_red := 365 }

/-- The same input with both sources disabled. -/
def entradaApagada : Entradas :=
  { entradaEjemplo with chk_solar := false, chk_red := false }

/-- A fully-parsed, in-range validator input with only the solar source. -/
def camposEjemplo : CamposEntrada :=
  { precio_btc := some 60000
    cambio_usd_eur := some (108 / 100)
    hashrate_eh := some 600
    fees_btc_bloque := some (5 / 100)
    recompensa_btc := some (25 / 8)
    comision := some (2 / 100)
    num_minero := some 1
    ths := some 100
    consumo_kw := some 3500
    precio_equipo := 500
    chk_solar := true
    precio_venta := 4 / 100
    horas_solares_dia := some (11 / 2)
    dias_uso := some 365
    chk_red := false
    precio_red := 8 / 100
    horas_red_dia := some 24
    dias_red := some 365 }

/-!  ## Theorems -/

namespace FloatV

/-- A NaN/Inf operand makes an IEEE sum NaN/Inf. -/
theorem add_special (x y : FloatV)
    (h : x.isSpecial = true ∨ y.isSpecial = true) :
    (x.add y).isSpecial = true := by
  cases x <;> cases y <;> simp_all [add, isSpecial]

/-- A NaN/Inf operand makes an IEEE product NaN/Inf. -/
theorem mul_special (x y : FloatV)
    (h : x.isSpecial = true ∨ y.isSpecial = true) :
    (x.mul y).isSpecial = true := by
  cases x <;> cases y <;> simp_all [mul, isSpecial] <;> split_ifs <;> rfl

/-- A NaN/Inf dividend makes an IEEE quotient NaN/Inf. -/
theorem div_special_left (x y : FloatV) (h : x.isSpecial = true) :
    (x.div y).isSpecial = true := by
  cases x <;> cases y <;> simp_all [div, isSpecial] <;> split_ifs <;> rfl

/-- A NaN/Inf divisor makes an IEEE quotient NaN/Inf or exactly zero. -/
theorem div_special_right (x y : FloatV) (h : y.isSpecial = true) :
    (x.div y).isSpecial = true ∨ x.div y = fin 0 := by
  cases x <;> cases y <;> simp_all [div, isSpecial]

/-- Multiplying an exact IEEE zero gives zero or NaN. -/
theorem mul_fin_zero (y : FloatV) :
    ((fin 0).mul y).isSpecial = true ∨ (fin 0).mul y = fin 0 := by
  cases y <;> simp [mul, isSpecial]

end FloatV

/-- On finite inputs with positive price and positive hashrate the extended
computation produces exactly the finite closed form. -/
theorem actualizar_hashprice_spot_fin (r f h p : ℚ) (hh : 0 < h) (hp : 0 < p) :
    actualizar_hashprice_spot ⟨.fin p, .fin r, .fin f, .fin h⟩
      = .fin (hashprice_eur_fin r f h p) := by
  have h1000 : h * 1000 ≠ 0 := by positivity
  simp only [actualizar_hashprice_spot, FloatV.le0, FloatV.gt0, FloatV.add,
    FloatV.mul, FloatV.div, FloatV.isSpecial, hashprice_eur_fin,
    decide_eq_true_eq, not_le.mpr hp, decide_eq_false_iff_not, not_le, hp,
    if_true, h1000, if_false, Bool.false_eq_true, if_neg, hh]

/-- Any NaN or infinite field makes the computed hashprice NaN/Inf or an
exact zero, so the guarded result is exactly `0`. -/
theorem actualizar_hashprice_spot_special (s : NetworkSnapshot)
    (h : s.precio_btc.isSpecial = true ∨ s.recompensa_btc.isSpecial = true ∨
         s.fees_btc_bloque.isSpecial = true ∨ s.hashrate_eh.isSpecial = true) :
    actualizar_hashprice_spot s = .fin 0 := by
  obtain ⟨p, r, f, n⟩ := s
  simp only [actualizar_hashprice_spot]
  by_cases hple : p.le0 = true
  · simp [hple]
  · simp only [hple, Bool.false_eq_true, if_false]
    by_cases hngt : n.gt0 = true
    · simp only [hngt, if_true]
      suffices hcore :
          (((r.add f).mul (.fin BLOQUES_POR_DIA)).div
              (n.mul (.fin 1000))).mul p = FloatV.fin 0 ∨
          ((((r.add f).mul (.fin BLOQUES_POR_DIA)).div
              (n.mul (.fin 1000))).mul p).isSpecial = true by
        rcases hcore with hz | hsp
        · rw [hz]; simp [FloatV.isSpecial]
        · simp [hsp]
      rcases h with hP | hR | hF | hN
      · exact Or.inr (FloatV.mul_special _ _ (Or.inr hP))
      · exact Or.inr (FloatV.mul_special _ _ (Or.inl
          (FloatV.div_special_left _ _
            (FloatV.mul_special _ _ (Or.inl
              (FloatV.add_special _ _ (Or.inl hR)))))))
      · exact Or.inr (FloatV.mul_special _ _ (Or.inl
          (FloatV.div_special_left _ _
            (FloatV.mul_special _ _ (Or.inl
              (FloatV.add_special _ _ (Or.inr hF)))))))
      · have h1 : (n.mul (.fin 1000)).isSpecial = true :=
          FloatV.mul_special _ _ (Or.inl hN)
        rcases FloatV.div_special_right
            ((r.add f).mul (.fin BLOQUES_POR_DIA)) _ h1 with hs | hz
        · exact Or.inr (FloatV.mul_special _ _ (Or.inl hs))
        · rw [hz]
          rcases FloatV.mul_fin_zero p with hs | hz2
          · exact Or.inr hs
          · exact Or.inl hz2
    · simp [hngt]

/-- Adding the all-zero tuple on the left is the identity. -/
theorem Metricas.cero_suma (m : Metricas) : Metricas.suma Metricas.cero m = m := by
  cases m; simp [Metricas.suma, Metricas.cero]

/-- Adding the all-zero tuple on the right is the identity. -/
theorem Metricas.suma_cero (m : Metricas) : Metricas.suma m Metricas.cero = m := by
  cases m; simp [Metricas.suma, Metricas.cero]

/-- C4: for a disabled energy source all six result fields are exactly 0
(regardless of every other input), and the combined (field-wise-summed)
result equals the other source's result unchanged. -/
theorem fuente_deshabilitada_resultado_cero (e : Entradas) :
    (e.chk_solar = false →
      (calcular e).solar = Metricas.cero ∧
      Metricas.suma (calcular e).solar (calcular e).red = (calcular e).red) ∧
    (e.chk_red = false →
      (calcular e).red = Metricas.cero ∧
      Metricas.suma (calcular e).solar (calcular e).red = (calcular e).solar) := by
  constructor
  · intro hs
    have hz : (calcular e).solar = Metricas.cero := by
      simp [calcular, calcular_metricas_solares, hs]
    exact ⟨hz, by rw [hz, Metricas.cero_suma]⟩
  · intro hr
    have hz : (calcular e).red = Metricas.cero := by
      simp [calcular, calcular_metricas_red, hr]
    exact ⟨hz, by rw [hz, Metricas.suma_cero]⟩

/-- C4 witness: with both sources disabled, both source results are the
all-zero tuple. -/
theorem fuente_deshabilitada_resultado_cero_witness :
    (calcular entradaApagada).solar = Metricas.cero ∧
    (calcular entradaApagada).red = Metricas.cero :=
  ⟨((fuente_deshabilitada_resultado_cero entradaApagada).1 rfl).1,
   ((fuente_deshabilitada_resultado_cero entradaApagada).2 rfl).1⟩

/-- C2: for an enabled source with non-negative power draw, hours, days and
tariff and a pool-fee rate in `[0,1]`, the returned net profit satisfies
exactly `net = gross - pool_fees - |energy_cost|`,
`pool_fees = gross * rate`, `|energy_cost| = (power * hours * days) * tariff`,
and this coincides with the `gross * (1 - rate) - |energy_cost|`
formulation, for both the solar and the grid formula. -/
theorem beneficio_neto_identidad
    (hp ths ck tarifa_sol tarifa_red com horas_sol horas_red : ℚ)
    (dias_sol dias_red : ℤ)
    (hck : 0 ≤ ck) (hhs : 0 ≤ horas_sol) (hhr : 0 ≤ horas_red)
    (hds : 0 ≤ dias_sol) (hdr : 0 ≤ dias_red)
    (hts : 0 ≤ tarifa_sol) (htr : 0 ≤ tarifa_red)
    (_hcom0 : 0 ≤ com) (_hcom1 : com ≤ 1) :
    ((calcular_metricas_solares true hp ths ck tarifa_sol com horas_sol
        dias_sol).beneficio_neto
      = (calcular_metricas_solares true hp ths ck tarifa_sol com horas_sol
          dias_sol).ingreso_bruto
        - (calcular_metricas_solares true hp ths ck tarifa_sol com horas_sol
            dias_sol).fees_pool
        - |(calcular_metricas_solares true hp ths ck tarifa_sol com horas_sol
            dias_sol).coste| ∧
      (calcular_metricas_solares true hp ths ck tarifa_sol com horas_sol
        dias_sol).beneficio_neto
      = (calcular_metricas_solares true hp ths ck tarifa_sol com horas_sol
          dias_sol).ingreso_bruto * (1 - com)
        - |(calcular_metricas_solares true hp ths ck tarifa_sol com horas_sol
            dias_sol).coste| ∧
      |(calcular_metricas_solares true hp ths ck tarifa_sol com horas_sol
          dias_sol).coste|
      = (ck * horas_sol * (dias_sol : ℚ)) * tarifa_sol) ∧
    ((calcular_metricas_red true hp ths ck tarifa_red com horas_red
        dias_red).beneficio_neto
      = (calcular_metricas_red true hp ths ck tarifa_red com horas_red
          dias_red).ingreso_bruto
        - (calcular_metricas_red true hp ths ck tarifa_red com horas_red
            dias_red).fees_pool
        - |(calcular_metricas_red true hp ths ck tarifa_red com horas_red
            dias_red).coste| ∧
      (calcular_metricas_red true hp ths ck tarifa_red com horas_red
        dias_red).beneficio_neto
      = (calcular_metricas_red true hp ths ck tarifa_red com horas_red
          dias_red).ingreso_bruto * (1 - com)
        - |(calcular_metricas_red true hp ths ck tarifa_red com horas_red
            dias_red).coste| ∧
      |(calcular_metricas_red true hp ths ck tarifa_red com horas_red
          dias_red).coste|
      = (ck * horas_red * (dias_red : ℚ)) * tarifa_red) := by
  have hdsq : (0 : ℚ) ≤ (dias_sol : ℚ) := by exact_mod_cast hds
  have hdrq : (0 : ℚ) ≤ (dias_red : ℚ) := by exact_mod_cast hdr
  have hcs : (0 : ℚ) ≤ ck * (horas_sol * (dias_sol : ℚ)) * tarifa_sol :=
    mul_nonneg (mul_nonneg hck (mul_nonneg hhs hdsq)) hts
  have hcr : (0 : ℚ) ≤ ck * (horas_red * (dias_red : ℚ)) * tarifa_red :=
    mul_nonneg (mul_nonneg hck (mul_nonneg hhr hdrq)) htr
  simp only [calcular_metricas_solares, calcular_metricas_red,
    Bool.not_true, Bool.false_eq_true, if_false]
  rw [abs_neg, abs_of_nonneg hcs, abs_neg, abs_of_nonneg hcr]
  refine ⟨⟨by ring, by ring, by ring⟩, by ring, by ring, by ring⟩

/-- C2 witness at the Scenario-A numbers. -/
theorem beneficio_neto_identidad_witness :
    |(calcular_metricas_solares true (1143 / 25000) 100 (7 / 2) (4 / 100)
        (2 / 100) (11 / 2) 365).coste|
      = ((7 / 2) * (11 / 2) * (365 : ℚ)) * (4 / 100) :=
  (beneficio_neto_identidad (1143 / 25000) 100 (7 / 2) (4 / 100) (8 / 100)
    (2 / 100) (11 / 2) 24 365 365 (by norm_num) (by norm_num) (by norm_num)
    (by norm_num) (by norm_num) (by norm_num) (by norm_num) (by norm_num)
    (by norm_num)).1.2.2

/-- C3: with a positive unit price and unit count, each of the three
amortization rows is rendered as the "No rentable" sentinel exactly when the
corresponding net profit is `≤ 0` (never as the number 0 or a negative
number), and as `unit_price_total / net_profit` years when the net profit is
positive. -/
theorem amortizacion_centinela (e : Entradas)
    (hpu : 0 < e.precio_equipo_unidad) (hnum : 0 < e.num_minero) :
    ((calcular e).solar.beneficio_neto ≤ 0 →
        mostrar_amortizacion (calcular e).amort_solar = .noRentable) ∧
    (0 < (calcular e).solar.beneficio_neto →
        mostrar_amortizacion (calcular e).amort_solar =
          .anios ((calcular e).precio_equipo /
                  (calcular e).solar.beneficio_neto)) ∧
    ((calcular e).red.beneficio_neto ≤ 0 →
        mostrar_amortizacion (calcular e).amort_red = .noRentable) ∧
    (0 < (calcular e).red.beneficio_neto →
        mostrar_amortizacion (calcular e).amort_red =
          .anios ((calcular e).precio_equipo /
                  (calcular e).red.beneficio_neto)) ∧
    ((calcular e).produccion_total ≤ 0 →
        mostrar_amortizacion (calcular e).amort_total = .noRentable) ∧
    (0 < (calcular e).produccion_total →
        mostrar_amortizacion (calcular e).amort_total =
          .anios ((calcular e).precio_equipo /
                  (calcular e).produccion_total)) := by
  have hnumq : (0 : ℚ) < (e.num_minero : ℚ) := by exact_mod_cast hnum
  have hpe : 0 < e.precio_equipo_unidad * (e.num_minero : ℚ) :=
    mul_pos hpu hnumq
  refine ⟨?_, ?_, ?_, ?_, ?_, ?_⟩ <;> intro h <;>
    simp only [calcular, mostrar_amortizacion] at h ⊢
  · simp [h.not_lt]
  · have hd := div_pos hpe h
    simp only [calcular] at hd
    simp [h, hd]
  · simp [h.not_lt]
  · have hd := div_pos hpe h
    simp only [calcular] at hd
    simp [h, hd]
  · simp [h.not_lt]
  · have hd := div_pos hpe h
    simp only [calcular] at hd
    simp [h, hd]

/-- C3 witness: on the fully-enabled example every net profit is positive so
the solar row shows a number of years, and on the all-disabled example the
solar net profit is 0 so the sentinel is shown. -/
theorem amortizacion_centinela_witness :
    mostrar_amortizacion (calcular entradaEjemplo).amort_solar =
      .anios ((calcular entradaEjemplo).precio_equipo /
              (calcular entradaEjemplo).solar.beneficio_neto) ∧
    mostrar_amortizacion (calcular entradaApagada).amort_solar =
      .noRentable :=
  ⟨(amortizacion_centinela entradaEjemplo (by norm_num [entradaEjemplo])
      (by norm_num [entradaEjemplo])).2.1
      (by norm_num [calcular, calcular_metricas_solares, entradaEjemplo]),
   (amortizacion_centinela entradaApagada
      (by norm_num [entradaApagada, entradaEjemplo])
      (by norm_num [entradaApagada, entradaEjemplo])).1
      (by norm_num [calcular, calcular_metricas_solares, entradaApagada,
        entradaEjemplo, Metricas.cero])⟩

/-- C10: the reported photovoltaic capacity is the total power draw in kW
divided by the fixed 0.8 solar performance factor (equivalently, 1.25 times
the total power draw) when the solar source is enabled, and exactly 0 when it
is disabled.  This derived output and the 0.8 constant appear nowhere in the
written spec. -/
theorem potencia_fotovoltaica_regla (e : Entradas) :
    (calcular e).potencia_fotovoltaica_kwp =
      (if e.chk_solar then
        (calcular e).consumo_kw_total / FACTOR_RENDIMIENTO_SOLAR else 0) ∧
    (calcular e).potencia_fotovoltaica_kwp =
      (if e.chk_solar then
        ((e.consumo_w / 1000) * (e.num_minero : ℚ)) * (5 / 4) else 0) := by
  constructor
  · simp [calcular]
  · simp only [calcular, FACTOR_RENDIMIENTO_SOLAR]
    cases e.chk_solar <;> (simp; try ring)

/-- C9: multiplying the unit count by 10 (from 1 to 10) multiplies each
source's gross revenue and consumed energy and the total investment by
exactly 10, and total hashrate, total power draw and total price are linear
in the unit count. -/
theorem escala_lineal_unidades (e : Entradas) :
    ((calcular { e with num_minero := 10 }).solar.ingreso_bruto
        = 10 * (calcular { e with num_minero := 1 }).solar.ingreso_bruto) ∧
    ((calcular { e with num_minero := 10 }).red.ingreso_bruto
        = 10 * (calcular { e with num_minero := 1 }).red.ingreso_bruto) ∧
    ((calcular { e with num_minero := 10 }).solar.energia_consumida
        = 10 * (calcular { e with num_minero := 1 }).solar.energia_consumida) ∧
    ((calcular { e with num_minero := 10 }).red.energia_consumida
        = 10 * (calcular { e with num_minero := 1 }).red.energia_consumida) ∧
    ((calcular { e with num_minero := 10 }).precio_equipo
        = 10 * (calcular { e with num_minero := 1 }).precio_equipo) ∧
    (∀ n : ℤ,
      (calcular { e with num_minero := n }).ths_total = (n : ℚ) * e.ths ∧
      (calcular { e with num_minero := n }).consumo_kw_total
        = (n : ℚ) * (e.consumo_w / 1000) ∧
      (calcular { e with num_minero := n }).precio_equipo
        = (n : ℚ) * e.precio_equipo_unidad) := by
  refine ⟨?_, ?_, ?_, ?_, ?_, fun n => ⟨?_, ?_, ?_⟩⟩ <;>
    simp only [calcular, calcular_metricas_solares, calcular_metricas_red,
      Metricas.cero] <;>
    cases e.chk_solar <;> cases e.chk_red <;>
    (try simp) <;> (try ring)

/-- C5: whenever the network hashrate is `<= 0`, or the BTC price is `<= 0`,
or any snapshot field is NaN or infinite, the hashprice computation returns
exactly 0. -/
theorem hashprice_cero_si_degenerada (s : NetworkSnapshot)
    (h : s.hashrate_eh.le0 = true ∨ s.precio_btc.le0 = true ∨
         s.precio_btc.isSpecial = true ∨ s.recompensa_btc.isSpecial = true ∨
         s.fees_btc_bloque.isSpecial = true ∨ s.hashrate_eh.isSpecial = true) :
    actualizar_hashprice_spot s = .fin 0 := by
  rcases h with hh | hp | hsp | hsp | hsp | hsp
  · obtain ⟨p, r, f, n⟩ := s
    cases n with
    | fin a =>
      have ha : a ≤ 0 := by simpa [FloatV.le0] using hh
      have : FloatV.gt0 (.fin a) = false := by
        simp [FloatV.gt0, ha.not_lt]
      simp [actualizar_hashprice_spot, this]
    | nan => simp [FloatV.le0] at hh
    | inf => simp [FloatV.le0] at hh
    | ninf => exact actualizar_hashprice_spot_special _ (by simp [FloatV.isSpecial])
  · simp [actualizar_hashprice_spot, hp]
  · exact actualizar_hashprice_spot_special s (Or.inl hsp)
  · exact actualizar_hashprice_spot_special s (Or.inr (Or.inl hsp))
  · exact actualizar_hashprice_spot_special s (Or.inr (Or.inr (Or.inl hsp)))
  · exact actualizar_hashprice_spot_special s (Or.inr (Or.inr (Or.inr hsp)))

/-- C5 witness: a zero network hashrate and a NaN BTC price each yield
exactly 0. -/
theorem hashprice_cero_si_degenerada_witness :
    actualizar_hashprice_spot ⟨.fin 60000, .fin (25 / 8), .fin (1 / 20), .fin 0⟩
      = .fin 0 ∧
    actualizar_hashprice_spot ⟨.nan, .fin (25 / 8), .fin (1 / 20), .fin 600⟩
      = .fin 0 :=
  ⟨hashprice_cero_si_degenerada _ (Or.inl (by simp [FloatV.le0])),
   hashprice_cero_si_degenerada _ (Or.inr (Or.inr (Or.inl rfl)))⟩

/-- C6 counterexample: with NaN average fees (and otherwise healthy inputs)
the code returns 0, while sanitizing the NaN field to 0 before computing
would return the positive hashprice 45; so the result does not equal the
sanitize-then-compute result. -/
theorem hashprice_sanea_despues_counterexample :
    actualizar_hashprice_spot ⟨.fin 60000, .fin (25 / 8), .nan, .fin 600⟩ ≠
      hashprice_saneado_antes ⟨.fin 60000, .fin (25 / 8), .nan, .fin 600⟩ := by
  have h1 : actualizar_hashprice_spot
      ⟨.fin 60000, .fin (25 / 8), .nan, .fin 600⟩ = .fin 0 :=
    actualizar_hashprice_spot_special _ (Or.inr (Or.inr (Or.inl rfl)))
  have h2 : hashprice_saneado_antes
      ⟨.fin 60000, .fin (25 / 8), .nan, .fin 600⟩ = .fin 45 := by
    show actualizar_hashprice_spot
      ⟨sanitizar (.fin 60000), sanitizar (.fin (25 / 8)),
       sanitizar .nan, sanitizar (.fin 600)⟩ = .fin 45
    have hs : (⟨sanitizar (.fin 60000), sanitizar (.fin (25 / 8)),
        sanitizar .nan, sanitizar (.fin 600)⟩ : NetworkSnapshot)
        = ⟨.fin 60000, .fin (25 / 8), .fin 0, .fin 600⟩ := by
      simp [sanitizar, FloatV.isSpecial]
    rw [hs, actualizar_hashprice_spot_fin (25 / 8) 0 600 60000 (by norm_num)
      (by norm_num)]
    norm_num [hashprice_eur_fin, BLOQUES_POR_DIA]
  rw [h1, h2]
  simp

/-- C6 amended: a NaN or infinite field always produces the blanket result 0
(the code computes first and replaces a NaN/Inf outcome by 0), not the
recomputation with that field replaced by 0. -/
theorem hashprice_nan_inf_cero (s : NetworkSnapshot)
    (h : s.precio_btc.isSpecial = true ∨ s.recompensa_btc.isSpecial = true ∨
         s.fees_btc_bloque.isSpecial = true ∨ s.hashrate_eh.isSpecial = true) :
    actualizar_hashprice_spot s = .fin 0 :=
  actualizar_hashprice_spot_special s h

/-- C6 amended witness: NaN fees alone give 0. -/
theorem hashprice_nan_inf_cero_witness :
    actualizar_hashprice_spot ⟨.fin 60000, .fin (25 / 8), .nan, .fin 600⟩
      = .fin 0 :=
  hashprice_nan_inf_cero _ (Or.inr (Or.inr (Or.inl rfl)))

/-- C1: for an enabled source on validated inputs, the gross annual revenue
is the hashprice composed end-to-end with the per-source formula: the
exa-to-tera factor of 1,000,000 (the ×1000 of the PH-scale hashprice times
the engine's further ÷1000) is applied exactly once, so
`gross = ((reward + fees) * 144 / (EH * 10^6)) * price * (ths * units)
* (hours * days / 24)`. -/
theorem ingreso_bruto_composicion_hashprice (e : Entradas) (r f h p : ℚ)
    (hh : 0 < h) (hp : 0 < p)
    (he : actualizar_hashprice_spot ⟨.fin p, .fin r, .fin f, .fin h⟩
            = .fin e.hashprice_eur_ph) :
    (e.chk_solar = true →
      (calcular e).solar.ingreso_bruto
        = ((r + f) * 144 / (h * 1000000)) * p * (e.ths * (e.num_minero : ℚ))
            * ((e.horas_solares_dia * (e.dias_uso : ℚ)) / 24)) ∧
    (e.chk_red = true →
      (calcular e).red.ingreso_bruto
        = ((r + f) * 144 / (h * 1000000)) * p * (e.ths * (e.num_minero : ℚ))
            * ((e.horas_red_dia * (e.dias_red : ℚ)) / 24)) := by
  have hb := actualizar_hashprice_spot_fin r f h p hh hp
  rw [he] at hb
  injection hb with hb
  have hne : h ≠ 0 := ne_of_gt hh
  constructor <;> intro hc <;>
    (simp only [calcular, calcular_metricas_solares, calcular_metricas_red,
       hc, Bool.not_true, Bool.false_eq_true, if_false]
     rw [hb]
     simp only [hashprice_eur_fin, BLOQUES_POR_DIA]
     field_simp
     exact Or.inl (by ring))

/-- C1 witness at the Scenario-A numbers (hashprice 45.72 EUR/PH/day). -/
theorem ingreso_bruto_composicion_hashprice_witness :
    (calcular entradaEjemplo).solar.ingreso_bruto
      = ((25 / 8 + 1 / 20) * 144 / (600 * 1000000)) * 60000
          * (entradaEjemplo.ths * (entradaEjemplo.num_minero : ℚ))
          * ((entradaEjemplo.horas_solares_dia
              * (entradaEjemplo.dias_uso : ℚ)) / 24) :=
  (ingreso_bruto_composicion_hashprice entradaEjemplo (25 / 8) (1 / 20) 600
    60000 (by norm_num) (by norm_num)
    (by rw [actualizar_hashprice_spot_fin (25 / 8) (1 / 20) 600 60000
          (by norm_num) (by norm_num)]
        norm_num [hashprice_eur_fin, BLOQUES_POR_DIA, entradaEjemplo])).1 rfl

/-- C7: the validator verdict is true exactly when every numeric field it
examines parses, every range constraint holds simultaneously, and at least
one energy source is enabled; in particular a non-numeric required field or
two disabled sources make it false (it never raises). -/
theorem validar_datos_entrada_iff (d : CamposEntrada) :
    validar_datos_entrada d = true ↔
      ((∃ pb, d.precio_btc = some pb ∧ 0 < pb) ∧
       (∃ cu, d.cambio_usd_eur = some cu ∧ 0 < cu) ∧
       (∃ he, d.hashrate_eh = some he ∧ 0 < he) ∧
       (∃ fe, d.fees_btc_bloque = some fe ∧ 0 ≤ fe) ∧
       (∃ re, d.recompensa_btc = some re ∧ 0 < re) ∧
       (∃ co, d.comision = some co ∧ 0 ≤ co ∧ co ≤ 1) ∧
       (∃ nm, d.num_minero = some nm ∧ 0 < nm) ∧
       (∃ th, d.ths = some th ∧ 0 < th) ∧
       (∃ ck, d.consumo_kw = some ck ∧ 0 < ck) ∧
       0 < d.precio_equipo ∧
       (d.chk_solar = true →
         0 ≤ d.precio_venta ∧
         (∃ hs, d.horas_solares_dia = some hs ∧ 0 ≤ hs ∧ hs ≤ 24) ∧
         (∃ du, d.dias_uso = some du ∧ 1 ≤ du ∧ du ≤ 365)) ∧
       (d.chk_red = true →
         0 ≤ d.precio_red ∧
         (∃ hr, d.horas_red_dia = some hr ∧ 0 ≤ hr ∧ hr ≤ 24) ∧
         (∃ dr, d.dias_red = some dr ∧ 1 ≤ dr ∧ dr ≤ 365)) ∧
       (d.chk_solar = true ∨ d.chk_red = true)) := by
  have hvc : ∀ (α : Type) (o : Option α) (ok : α → Bool),
      valida_campo o ok = true ↔ ∃ a, o = some a ∧ ok a = true := by
    intro α o ok
    cases o <;> simp [valida_campo]
  cases hcs : d.chk_solar <;> cases hcr : d.chk_red <;>
    simp [validar_datos_entrada, hvc, hcs, hcr, and_assoc]

/-- C8: the solo-mining odds computation never raises (a missing/invalid
network-hashrate field yields "N/A"), and when the machine hashrate equals
the network hashrate in matching units (TH vs EH ×10⁶) the expected blocks
per year are 144·365, the Poisson probability is `1 - exp(-52560) ≈ 1`, and
the reported odds are "1 entre 1". -/
theorem probabilidad_solo_mining_hashrate_igual (ths h_eh : ℝ)
    (hpos : 0 < h_eh) (hths : ths = h_eh * 1000000) :
    calcular_probabilidad_solo_mining ths none = .noDisponible ∧
    calcular_probabilidad_solo_mining ths (some h_eh) = .entre 1 := by
  refine ⟨rfl, ?_⟩
  have h6 : (0 : ℝ) < h_eh * 1000000 := by positivity
  have hdiv : ths / (h_eh * 1000000) = 1 := by
    rw [hths]
    exact div_self (ne_of_gt h6)
  have hba : ((BLOQUES_POR_DIA : ℚ) : ℝ) * 365 = 52560 := by
    norm_num [BLOQUES_POR_DIA]
  have hexp_lt : Real.exp (-(52560 : ℝ)) < 1 / 3 := by
    have h1 : Real.exp (-(52560 : ℝ)) < Real.exp (-2) :=
      Real.exp_lt_exp.mpr (by norm_num)
    have h2 : (3 : ℝ) ≤ Real.exp 2 := by
      have := Real.add_one_le_exp (2 : ℝ)
      linarith
    have h3 : Real.exp (-2 : ℝ) ≤ 1 / 3 := by
      rw [Real.exp_neg]
      rw [inv_le_comm₀ (Real.exp_pos 2) (by norm_num)]
      calc (1 / 3 : ℝ)⁻¹ = 3 := by norm_num
        _ ≤ Real.exp 2 := h2
    linarith
  have hexp_pos : 0 < Real.exp (-(52560 : ℝ)) := Real.exp_pos _
  have hprob_pos : 0 < 1 - Real.exp (-(52560 : ℝ)) := by linarith
  have hprob_lt : 1 - Real.exp (-(52560 : ℝ)) < 1 := by linarith
  have hprob_gt : (2 : ℝ) / 3 < 1 - Real.exp (-(52560 : ℝ)) := by linarith
  simp only [calcular_probabilidad_solo_mining, hdiv, mul_one, hba,
    if_pos h6]
  rw [if_pos (by norm_num : (0 : ℝ) < (52560 : ℝ)), if_pos hprob_pos]
  have hx1 : 1 < 1 / (1 - Real.exp (-(52560 : ℝ))) :=
    (one_lt_div hprob_pos).mpr hprob_lt
  have hx2 : 1 / (1 - Real.exp (-(52560 : ℝ))) < 3 / 2 := by
    rw [div_lt_div_iff₀ hprob_pos (by norm_num)]
    linarith
  set x : ℝ := 1 / (1 - Real.exp (-(52560 : ℝ))) with hxdef
  have hfloor : ⌊x⌋ = 1 := by
    rw [Int.floor_eq_iff]
    constructor
    · push_cast
      linarith
    · push_cast
      linarith
  have hfract : Int.fract x = x - 1 := by
    rw [Int.fract, hfloor]
    norm_num
  have hne : Int.fract x ≠ 1 / 2 := by
    rw [hfract]
    intro hcon
    have : x = 3 / 2 := by linarith
    linarith
  have hround : pythonRound x = 1 := by
    rw [pythonRound, if_neg hne, round_eq]
    rw [Int.floor_eq_iff]
    constructor
    · push_cast
      linarith
    · push_cast
      linarith
  rw [hround]

/-- C8 witness: 600 EH/s network, 600,000,000 TH/s of hardware. -/
theorem probabilidad_solo_mining_hashrate_igual_witness :
    calcular_probabilidad_solo_mining 600000000 none = .noDisponible ∧
    calcular_probabilidad_solo_mining 600000000 (some 600) = .entre 1 :=
  probabilidad_solo_mining_hashrate_igual 600000000 600 (by norm_num)
    (by norm_num)

end Calculadora
